import Mathlib

/-!
# cpyext complex-object adapter (`complexobject.inl`)

A shallow embedding of `pypy/module/cpyext/include/complexobject.inl`.

The file holds one function with a body, the inline wrapper
`PyComplex_AsCComplex`, and the prototype of the generated primitive
`_PyComplex_AsCComplex` that it forwards to.  The wrapper is embedded by
explicit state passing: the primitive it calls is a parameter (any function
of the handle, the pointed-to slot and the runtime state), and the
indeterminate contents of the uninitialised local `result` are an explicit
argument.
-/

/-- Modelled from the spec: the C type `double` is not declared in the
sources.  A double is carried as its IEEE-754 binary64 bit pattern; the
adapter only copies doubles and never computes with them. -/
abbrev double := Nat

/-- Modelled from the spec: the struct `Py_complex` is declared outside the
sources (section 3, "a fixed-size, two-field record
`{ real: double, imag: double }`"). -/
structure Py_complex where
  real : double
  imag : double
deriving DecidableEq, Repr

/-- Modelled from the spec: `PyObject *`, the opaque borrowed object handle
(section 3); the type is declared outside the sources.  A handle is the
address it holds. -/
abbrev PyObject := Nat

/-- The calling contract of a function with the prototype of line 10,
`void _PyComplex_AsCComplex(PyObject *, Py_complex *)`, over a runtime state
`σ`: from the handle, the contents of the pointed-to slot and the state
before the call, to the contents of the slot and the state after it. -/
abbrev Primitive (σ : Type) := PyObject → Py_complex → σ → Py_complex × σ

/-- The inline wrapper of lines 12-17.

    Py_complex result;
    _PyComplex_AsCComplex(obj, &result);
    return result;

`uninit` stands for the indeterminate contents of the local `result`, which
is declared without an initialiser. -/
def PyComplex_AsCComplex {σ : Type} (primitive : Primitive σ)
    (obj : PyObject) (uninit : Py_complex) (st : σ) : Py_complex × σ :=
  let result : Py_complex := uninit
  let (result, st) := primitive obj result st
  (result, st)

/-! ## The runtime on the far side of the boundary

The sources hold no part of the managed runtime.  What follows is the
specification's description of it, used to state the claims that speak of
the ambient error state, of the coercion service and of the primitive's own
behaviour. -/

/-- Modelled from the spec: the error taxonomy of section 7.  The sources
declare no error type.  `ConversionError` is the one kind the coercion
service raises; `UserException` stands for an exception-like condition that
originates in a user-defined conversion method. -/
inductive PyErr where
  | ConversionError
  | UserException (code : Nat)
deriving DecidableEq, Repr

/-- Modelled from the spec: the runtime state that crosses the boundary
(section 3), absent from the sources: the ambient error state, and the
shared state that user-defined conversion code may mutate. -/
structure Runtime where
  error : Option PyErr
  shared : List Nat
deriving DecidableEq, Repr

/-- Modelled from the spec: the outcome of the external coercion service,
`Result<NumericResult, CoercionError>` (section 6), together with the
runtime state the service leaves behind. -/
abbrev Coercion := Except PyErr Py_complex × Runtime

/-- Modelled from the spec: what an object handle denotes, the tagged union
of section 9, `{native-complex, native-float, user-defined-convertible,
unconvertible}`.  The object model is not in the sources.  A user-defined
conversion method is arbitrary code over the runtime state. -/
inductive Capability where
  | native_complex (value : Py_complex)
  | native_float (value : double)
  | user_defined_convertible (method : Runtime → Coercion)
  | unconvertible

/-- Modelled from the spec: the coercion service `try_coerce_to_complex` of
section 6, which the sources do not contain.  It yields the complex value an
object denotes (a native float `x` denotes `x + 0.0i`, and `+0.0` has the
bit pattern 0), runs a user-defined conversion method, and on failure sets
the ambient error state (section 3: "set by the runtime's coercion service
when conversion is impossible").  It never clears the ambient error state. -/
def try_coerce_to_complex (denotes : PyObject → Capability)
    (obj : PyObject) (st : Runtime) : Coercion :=
  match denotes obj with
  | Capability.native_complex v => (Except.ok v, st)
  | Capability.native_float x => (Except.ok { real := x, imag := 0 }, st)
  | Capability.user_defined_convertible method =>
      match method st with
      | (Except.ok v, st1) => (Except.ok v, st1)
      | (Except.error e, st1) => (Except.error e, { st1 with error := some e })
  | Capability.unconvertible =>
      (Except.error PyErr.ConversionError,
        { st with error := some PyErr.ConversionError })

/-- Modelled from the spec: the body of the generated primitive
`_PyComplex_AsCComplex`, of which the sources hold the prototype only
(line 10).  Following section 4.1 and P2: it asks the coercion service, on
success stores the value into `*out`, on failure leaves `*out` as it found
it, and in both cases leaves the runtime state as the service left it.  Its
return type is `void`: the slot and the runtime state are its only
outputs. -/
def _PyComplex_AsCComplex (coerce : PyObject → Runtime → Coercion) :
    Primitive Runtime :=
  fun obj out st =>
    match coerce obj st with
    | (Except.ok v, st1) => (v, st1)
    | (Except.error _, st1) => (out, st1)

/-- The primitive with a call log beside the runtime state: every invocation
appends the handle it was passed to the log, and otherwise behaves as the
primitive does. -/
def logged {σ : Type} (primitive : Primitive σ) :
    Primitive (σ × List PyObject) :=
  fun obj slot st =>
    let (result, st1) := primitive obj slot st.1
    (result, (st1, st.2 ++ [obj]))

/-- A run of earlier wrapper calls, one after the other, each with its own
handle and its own indeterminate slot contents; the returned structs are
dropped and the runtime state is threaded through. -/
def earlier_calls {σ : Type} (primitive : Primitive σ) :
    List (PyObject × Py_complex) → σ → σ
  | [], st => st
  | (obj, uninit) :: calls, st =>
      earlier_calls primitive calls (PyComplex_AsCComplex primitive obj uninit st).2

/-- The double 3.0. -/
def d3 : double := 0x4008000000000000

/-- The double 4.0. -/
def d4 : double := 0x4010000000000000

/-- The double -1.0. -/
def dm1 : double := 0xBFF0000000000000

/-- A heap for the scenarios: handle 1 denotes `3.0 + 4.0i`, handle 2 the
float 3.0, handle 3 an object whose conversion method raises, and every
other handle an object with no numeric interpretation (a string, say). -/
def scenario : PyObject → Capability := fun obj =>
  if obj = 1 then Capability.native_complex { real := d3, imag := d4 }
  else if obj = 2 then Capability.native_float d3
  else if obj = 3 then
    Capability.user_defined_convertible
      (fun st => (Except.error (PyErr.UserException 7), st))
  else Capability.unconvertible

/-- The primitive over the scenario heap. -/
def scenario_primitive : Primitive Runtime :=
  _PyComplex_AsCComplex (try_coerce_to_complex scenario)

/-- A runtime state with no error pending. -/
def clean : Runtime := { error := none, shared := [] }

/-- A runtime state in which an error is already pending. -/
def pending : Runtime := { error := some (PyErr.UserException 1), shared := [5] }

/-- Indeterminate stack contents, told apart from zeroes and from
`{-1.0, 0.0}`. -/
def garbage : Py_complex := { real := 0xDEADBEEF, imag := 0xCAFE }

/-- The wrapper hands back the pair of slot contents and runtime state that
the primitive produced from the indeterminate slot and the state before the
call. -/
theorem PyComplex_AsCComplex_eq {σ : Type} (primitive : Primitive σ)
    (obj : PyObject) (uninit : Py_complex) (st : σ) :
    PyComplex_AsCComplex primitive obj uninit st = primitive obj uninit st := by
  unfold PyComplex_AsCComplex
  rfl

/-- On an object with no numeric interpretation the coercion service fails
with `ConversionError` and sets the ambient error state to it, touching
nothing else. -/
theorem try_coerce_to_complex_unconvertible (denotes : PyObject → Capability)
    (obj : PyObject) (st : Runtime) (h : denotes obj = Capability.unconvertible) :
    try_coerce_to_complex denotes obj st =
      (Except.error PyErr.ConversionError,
        { st with error := some PyErr.ConversionError }) := by
  unfold try_coerce_to_complex
  rw [h]

/-- C1 (success path of the wrapper).  Whenever the primitive, called on the
handle with the wrapper's slot in the given runtime state, populates the slot
with `{real: r, imag: i}` and returns with no ambient error set, the wrapper
returns exactly `{real: r, imag: i}`, real as real and imag as imag, and no
ambient error is set after the call: the runtime state is the one the
primitive left. -/
theorem wrapper_success_path (primitive : Primitive Runtime) (obj : PyObject)
    (uninit : Py_complex) (st st1 : Runtime) (r i : double)
    (hpop : primitive obj uninit st = ({ real := r, imag := i }, st1))
    (hok : st1.error = none) :
    (PyComplex_AsCComplex primitive obj uninit st).1 = { real := r, imag := i } ∧
    (PyComplex_AsCComplex primitive obj uninit st).1.real = r ∧
    (PyComplex_AsCComplex primitive obj uninit st).1.imag = i ∧
    (PyComplex_AsCComplex primitive obj uninit st).2.error = none ∧
    (PyComplex_AsCComplex primitive obj uninit st).2 = st1 := by
  rw [PyComplex_AsCComplex_eq, hpop]
  exact ⟨rfl, rfl, rfl, hok, rfl⟩

/-- Witness for C1: the scenario of section 8.  The handle denotes
`3.0 + 4.0i`, the slot holds garbage and no error is pending; the wrapper
returns `{real: 3.0, imag: 4.0}` and no error is set. -/
theorem wrapper_success_path_witness :
    scenario_primitive 1 garbage clean = ({ real := d3, imag := d4 }, clean) ∧
    clean.error = none ∧
    (PyComplex_AsCComplex scenario_primitive 1 garbage clean).1 = { real := d3, imag := d4 } ∧
    (PyComplex_AsCComplex scenario_primitive 1 garbage clean).1.real = d3 ∧
    (PyComplex_AsCComplex scenario_primitive 1 garbage clean).1.imag = d4 ∧
    (PyComplex_AsCComplex scenario_primitive 1 garbage clean).2.error = none ∧
    (PyComplex_AsCComplex scenario_primitive 1 garbage clean).2 = clean :=
  ⟨rfl, rfl, wrapper_success_path scenario_primitive 1 garbage clean clean d3 d4 rfl rfl⟩

/-- C2 (wrapper and primitive signal errors alike).  From every runtime
state, one with an error already pending included, the ambient error state
after the wrapper is the ambient error state after a direct call of the
primitive with the same handle in the same state; so is the whole runtime
state, hence the wrapper neither sets, clears nor rewrites anything on top of
the primitive.  The slot of the direct call holds what the wrapper's slot
held; when the primitive's error signal does not depend on the slot's
previous contents, the slot of the direct call may hold anything. -/
theorem wrapper_error_equivalence (primitive : Primitive Runtime)
    (obj : PyObject) (uninit : Py_complex) (st : Runtime) :
    (PyComplex_AsCComplex primitive obj uninit st).2.error
      = (primitive obj uninit st).2.error ∧
    (PyComplex_AsCComplex primitive obj uninit st).2 = (primitive obj uninit st).2 ∧
    ((∀ s1 s2 : Py_complex,
        (primitive obj s1 st).2.error = (primitive obj s2 st).2.error) →
      ∀ slot : Py_complex,
        (PyComplex_AsCComplex primitive obj uninit st).2.error
          = (primitive obj slot st).2.error) := by
  rw [PyComplex_AsCComplex_eq]
  exact ⟨rfl, rfl, fun h slot => h uninit slot⟩

/-- Witness for C2: an error is already pending and the handle has no
numeric interpretation; wrapper and direct call, on slots with different
contents, leave the same ambient error. -/
theorem wrapper_error_equivalence_witness :
    (PyComplex_AsCComplex scenario_primitive 9 garbage pending).2.error
      = (scenario_primitive 9 { real := 0, imag := 0 } pending).2.error ∧
    (PyComplex_AsCComplex scenario_primitive 1 garbage pending).2.error
      = some (PyErr.UserException 1) :=
  ⟨(wrapper_error_equivalence scenario_primitive 9 garbage pending).2.2
      (fun _ _ => rfl) { real := 0, imag := 0 },
   (wrapper_error_equivalence scenario_primitive 1 garbage pending).1.trans rfl⟩

/-- C3 (one-shot forwarding).  With the primitive's invocations logged, one
call of the wrapper extends the log by exactly one entry, the handle the
wrapper was given, for every primitive, succeeding or failing; and what the
wrapper returns and leaves behind is what that one invocation produced. -/
theorem wrapper_calls_primitive_once {σ : Type} (primitive : Primitive σ)
    (obj : PyObject) (uninit : Py_complex) (st : σ) (log : List PyObject) :
    (PyComplex_AsCComplex (logged primitive) obj uninit (st, log)).2.2 = log ++ [obj] ∧
    (PyComplex_AsCComplex (logged primitive) obj uninit (st, [])).2.2 = [obj] ∧
    (PyComplex_AsCComplex (logged primitive) obj uninit (st, log)).1
      = (primitive obj uninit st).1 ∧
    (PyComplex_AsCComplex (logged primitive) obj uninit (st, log)).2.1
      = (primitive obj uninit st).2 := by
  simp [PyComplex_AsCComplex_eq, logged]

/-- C8 (the wrapper returns the slot as the primitive left it).  For every
primitive, succeeding or failing, the wrapper's return value is the contents
of its slot when the primitive returns and the runtime state is the one the
primitive left (nothing is raised locally, no default is substituted); a
primitive that did not write the slot makes the wrapper return the slot's
contents from before the call. -/
theorem wrapper_returns_slot_as_left {σ : Type} (primitive : Primitive σ)
    (obj : PyObject) (uninit : Py_complex) (st : σ) :
    (PyComplex_AsCComplex primitive obj uninit st).1 = (primitive obj uninit st).1 ∧
    (PyComplex_AsCComplex primitive obj uninit st).2 = (primitive obj uninit st).2 ∧
    ((primitive obj uninit st).1 = uninit →
      (PyComplex_AsCComplex primitive obj uninit st).1 = uninit) := by
  rw [PyComplex_AsCComplex_eq]
  exact ⟨rfl, rfl, id⟩

/-- Witness for C8: on a handle with no numeric interpretation the primitive
leaves the slot alone, and the wrapper returns the garbage the slot held,
which is neither zeroes nor `{-1.0, 0.0}`. -/
theorem wrapper_returns_slot_as_left_witness :
    (PyComplex_AsCComplex scenario_primitive 9 garbage clean).1 = garbage ∧
    (PyComplex_AsCComplex scenario_primitive 9 garbage clean).1 ≠ { real := 0, imag := 0 } ∧
    (PyComplex_AsCComplex scenario_primitive 9 garbage clean).1 ≠ { real := dm1, imag := 0 } :=
  have h := (wrapper_returns_slot_as_left scenario_primitive 9 garbage clean).2.2 rfl
  ⟨h, by rw [h]; decide, by rw [h]; decide⟩

/-- C9 (the indeterminate slot contents do not reach the caller on success).
If the primitive, on this handle and state, populates both fields of the slot
with `{real: r, imag: i}` whatever the slot held before, then the wrapper
returns the same value, `{real: r, imag: i}`, for any two initial contents of
its uninitialised slot. -/
theorem wrapper_independent_of_uninit {σ : Type} (primitive : Primitive σ)
    (obj : PyObject) (st : σ) (r i : double)
    (hpop : ∀ slot : Py_complex, (primitive obj slot st).1 = { real := r, imag := i })
    (uninit1 uninit2 : Py_complex) :
    (PyComplex_AsCComplex primitive obj uninit1 st).1
      = (PyComplex_AsCComplex primitive obj uninit2 st).1 ∧
    (PyComplex_AsCComplex primitive obj uninit1 st).1 = { real := r, imag := i } := by
  rw [PyComplex_AsCComplex_eq, PyComplex_AsCComplex_eq, hpop uninit1, hpop uninit2]
  exact ⟨rfl, rfl⟩

/-- Witness for C9: the handle denotes the float 3.0; garbage and zeroes in
the slot give the same returned value `{real: 3.0, imag: 0.0}`. -/
theorem wrapper_independent_of_uninit_witness :
    (∀ slot : Py_complex, (scenario_primitive 2 slot pending).1 = { real := d3, imag := 0 }) ∧
    (PyComplex_AsCComplex scenario_primitive 2 garbage pending).1
      = (PyComplex_AsCComplex scenario_primitive 2 { real := 0, imag := 0 } pending).1 ∧
    (PyComplex_AsCComplex scenario_primitive 2 garbage pending).1 = { real := d3, imag := 0 } :=
  ⟨fun _ => rfl,
   wrapper_independent_of_uninit scenario_primitive 2 pending d3 0 (fun _ => rfl)
     garbage { real := 0, imag := 0 }⟩

/-- C6 (statelessness of the wrapper).  Two calls of the wrapper on the same
handle that start from the same runtime state, each after a run of earlier
wrapper calls of its own and each with its own indeterminate slot contents,
return the same struct and leave the same ambient error state (indeed the
same runtime state), for a primitive whose outcome does not depend on what
its slot held before. -/
theorem wrapper_stateless (primitive : Primitive Runtime) (obj : PyObject)
    (st : Runtime)
    (hpop : ∀ s1 s2 : Py_complex, primitive obj s1 st = primitive obj s2 st)
    (before1 before2 : List (PyObject × Py_complex)) (st1 st2 : Runtime)
    (h1 : earlier_calls primitive before1 st1 = st)
    (h2 : earlier_calls primitive before2 st2 = st)
    (uninit1 uninit2 : Py_complex) :
    (PyComplex_AsCComplex primitive obj uninit1 (earlier_calls primitive before1 st1)).1
      = (PyComplex_AsCComplex primitive obj uninit2 (earlier_calls primitive before2 st2)).1 ∧
    (PyComplex_AsCComplex primitive obj uninit1 (earlier_calls primitive before1 st1)).2.error
      = (PyComplex_AsCComplex primitive obj uninit2 (earlier_calls primitive before2 st2)).2.error ∧
    PyComplex_AsCComplex primitive obj uninit1 (earlier_calls primitive before1 st1)
      = PyComplex_AsCComplex primitive obj uninit2 (earlier_calls primitive before2 st2) := by
  rw [h1, h2, PyComplex_AsCComplex_eq, PyComplex_AsCComplex_eq, hpop uninit1 uninit2]
  exact ⟨rfl, rfl, rfl⟩

/-- Witness for C6: one call is the first ever made; the other follows a
failed wrapper call on a string, which left `ConversionError` pending.  Both
start from the state with `ConversionError` pending, with different garbage
in the slot, and agree. -/
theorem wrapper_stateless_witness :
    PyComplex_AsCComplex scenario_primitive 1 garbage
        (earlier_calls scenario_primitive []
          { error := some PyErr.ConversionError, shared := [] })
      = PyComplex_AsCComplex scenario_primitive 1 { real := 0, imag := 0 }
          (earlier_calls scenario_primitive [(9, garbage)] clean) :=
  (wrapper_stateless scenario_primitive 1
    { error := some PyErr.ConversionError, shared := [] } (fun _ _ => rfl)
    [] [(9, garbage)] { error := some PyErr.ConversionError, shared := [] } clean
    rfl rfl garbage { real := 0, imag := 0 }).2.2

/-! ## The claims on the primitive and on nested use -/

/-- C4 (failure path of the primitive).  On a handle that has no numeric
interpretation the primitive leaves `*out` as it was before the call and sets
the ambient error state to `ConversionError`; nothing else of the runtime
state changes, and the primitive, returning `void`, yields nothing besides
the slot and the runtime state. -/
theorem primitive_failure_path (denotes : PyObject → Capability)
    (obj : PyObject) (out : Py_complex) (st : Runtime)
    (h : denotes obj = Capability.unconvertible) :
    (_PyComplex_AsCComplex (try_coerce_to_complex denotes) obj out st).1 = out ∧
    (_PyComplex_AsCComplex (try_coerce_to_complex denotes) obj out st).2.error
      = some PyErr.ConversionError ∧
    (_PyComplex_AsCComplex (try_coerce_to_complex denotes) obj out st).2
      = { st with error := some PyErr.ConversionError } := by
  unfold _PyComplex_AsCComplex
  rw [try_coerce_to_complex_unconvertible denotes obj st h]
  exact ⟨rfl, rfl, rfl⟩

/-- Witness for C4: handle 9 of the scenario heap, a string; the slot keeps
its garbage and `ConversionError` is set. -/
theorem primitive_failure_path_witness :
    scenario 9 = Capability.unconvertible ∧
    (_PyComplex_AsCComplex (try_coerce_to_complex scenario) 9 garbage clean).1 = garbage ∧
    (_PyComplex_AsCComplex (try_coerce_to_complex scenario) 9 garbage clean).2.error
      = some PyErr.ConversionError ∧
    (_PyComplex_AsCComplex (try_coerce_to_complex scenario) 9 garbage clean).2
      = { clean with error := some PyErr.ConversionError } :=
  ⟨rfl, primitive_failure_path scenario 9 garbage clean rfl⟩

